import Mathlib

/-!
Shallow embedding of `ragaai_catalyst/tracers/agentic_tracing/tracers/llm_tracer.py`
(class `LLMTracerMixin`): the dual-mode invocation adapter (`trace_llm_call`,
`trace_llm_call_sync`), the component builder (`create_llm_component`), the
per-component buffers (`start_component` / `end_component`), the decorator facade
(`trace_llm` and its wrappers) and the patch registry (`unpatch_llm_calls`).

Python dictionaries are modelled as association lists preserving insertion
order; Python values appearing as call parameters are modelled by the closed
type `Value`; machine-external collaborators (the extraction helpers, uuid,
timestamps, memory probes) are inputs of the embedded functions, packaged in
`CallIn`.
-/

/-- Python values as they occur in parameter dictionaries: the four scalar
types recognised by the display filter, plus structured values (lists,
dicts) and generic objects which may or may not carry a `metadata`
attribute (as probed by `hasattr(parameters_obj, "metadata")`). -/
inductive Value where
  | vStr : String → Value
  | vInt : Int → Value
  | vFloat : Rat → Value
  | vBool : Bool → Value
  | vList : List Value → Value
  | vDict : List (String × Value) → Value
  | vObj : Option (List (String × Value)) → Value

/-- Python truthiness of a `Value` (used for `if self.gt:` and `if feedback:`). -/
def isTruthy : Value → Bool
  | .vStr st => st ≠ ""
  | .vInt n => n ≠ 0
  | .vFloat q => q ≠ 0
  | .vBool b => b
  | .vList l => !l.isEmpty
  | .vDict d => !d.isEmpty
  | .vObj _ => true

/-- The `isinstance(value, (str, int, float, bool))` probe of the display filter. -/
def isScalarV : Value → Bool
  | .vStr _ => true
  | .vInt _ => true
  | .vFloat _ => true
  | .vBool _ => true
  | _ => false

/-- Dictionary lookup, `d[k]` / `k in d` (keys are unique in a Python dict,
so first-match lookup is exact). -/
def dictGet {α : Type} : List (String × α) → String → Option α
  | [], _ => none
  | p :: rest, k => if p.1 == k then some p.2 else dictGet rest k

/-- Dictionary lookup with default, `d.get(k, dflt)`. -/
def dictGetD {α : Type} (d : List (String × α)) (k : String) (dflt : α) : α :=
  (dictGet d k).getD dflt

/-- Dictionary assignment `d[k] = v` with Python semantics: an existing key
keeps its position and has its value replaced; a new key is appended. -/
def dictSet {α : Type} : List (String × α) → String → α → List (String × α)
  | [], k, v => [(k, v)]
  | p :: rest, k, v =>
    if p.1 == k then (k, v) :: rest else p :: dictSet rest k v

/-- Dictionary `d.update(e)`, entry by entry. -/
def dictUpdate {α : Type} (d e : List (String × α)) : List (String × α) :=
  e.foldl (fun acc kv => dictSet acc kv.1 kv.2) d

/-- Python `x.startswith(base)` on character lists. -/
def charsStart : List Char → List Char → Bool
  | _, [] => true
  | [], _ :: _ => false
  | c :: cs, d :: ds => c == d && charsStart cs ds

/-- Python `x.startswith(base)`: does `x` start with `base`? -/
def pyStarts (x base : String) : Bool :=
  charsStart x.toList base.toList

/-- A Python exception as seen by the adapter: its type name
(`type(e).__name__`) and message (`str(e)`). -/
structure Fault where
  ty : String
  msg : String

/-- The error envelope attached to a failed component. The adapter builds
`{code: 500, type, message, details: {}}`; the decorator facade builds
`{type, message, traceback, timestamp}` (no code) — `code` is optional to
cover both shapes; traceback/timestamp strings are not modelled. -/
structure ErrorEnv where
  code : Option Nat
  ty : String
  msg : String

/-- A registered metric entry: its (possibly rewritten) name and score. -/
structure Metric where
  mname : String
  score : Value

/-- Modelled from the spec: the `SpanAttributes` class
(`utils/span_attributes.py`, outside this source file) holds the
user-declared tags, metadata, metrics and feedback pending for a span name;
a fresh instance is empty. -/
structure SpanAttrs where
  sname : Option String
  tags : List String
  metadata : List (String × Value)
  metrics : List Metric
  feedback : Option Value

/-- Modelled from the spec: `SpanAttributes(name)` starts with no declared
tags, metadata, metrics or feedback. -/
def SpanAttrs.fresh (n : Option String) : SpanAttrs :=
  { sname := n, tags := [], metadata := [], metrics := [], feedback := none }

/-- The component dictionary built by `create_llm_component`. The nested
`info` and `data` dicts are flattened into prefixed fields; `info_display`
holds the `**parameters_to_display` entries spliced into `info`. -/
structure Component where
  id : String
  hash_id : String
  source_hash_id : Option String
  ctype : String
  cname : Option String
  start_time : String
  end_time : String
  error : Option ErrorEnv
  parent_id : Option String
  info_model : String
  info_version : Option String
  info_memory_used : Int
  info_cost : List (String × Rat)
  info_tokens : List (String × Nat)
  info_tags : List String
  info_display : List (String × Value)
  extra_info : List (String × Value)
  data_input : Value
  data_output : Option Value
  data_memory_used : Int
  data_gt : Option Value
  metrics : List Metric
  network_calls : List Value
  interactions : List Value

/-- Rendering of the initial `self.llm_data = {}`: an empty component record
(the decorator facade reads `self.llm_data` and only writes keys into it). -/
def emptyComponent : Component :=
  { id := "", hash_id := "", source_hash_id := none, ctype := "", cname := none,
    start_time := "", end_time := "", error := none, parent_id := none,
    info_model := "", info_version := none, info_memory_used := 0,
    info_cost := [], info_tokens := [], info_tags := [], info_display := [],
    extra_info := [], data_input := Value.vStr "", data_output := none,
    data_memory_used := 0, data_gt := none, metrics := [], network_calls := [],
    interactions := [] }

/-- One entry of the patch registry `self.patches`: target object (by
identity), method name, original callable (by identity). -/
abbrev PatchEntry : Type := Nat × String × Nat

/-- The mutable state of an `LLMTracerMixin` instance (including the fields
it inherits from the surrounding tracer: the active flag, the agent context
variables, the span-attributes dictionary, the visited-metrics list and the
output sink of `add_component`). -/
structure TracerState where
  is_active : Bool
  auto_instrument_llm : Bool
  auto_instrument_user_interaction : Bool
  auto_instrument_network : Bool
  total_tokens : Nat
  total_cost : Rat
  component_network_calls : List (String × List Value)
  component_user_interaction : List (String × List Value)
  current_component_id : Option String
  current_llm_call_name : Option String
  current_agent_id : Option String
  agent_children : List Component
  span_attributes_dict : List (Option String × SpanAttrs)
  visited_metrics : List String
  llm_data : Component
  gt : Option Value
  components : List Component
  patches : List PatchEntry

/-- The constant `self.MAX_PARAMETERS_TO_DISPLAY = 10`. -/
def MAX_PARAMETERS_TO_DISPLAY : Nat := 10

/-- Lookup in `self.span_attributes_dict` (keys may be `None`). -/
def saGet : List (Option String × SpanAttrs) → Option String → Option SpanAttrs
  | [], _ => none
  | p :: rest, k => if p.1 == k then some p.2 else saGet rest k

/-- Assignment `self.span_attributes_dict[k] = v`. -/
def saSet : List (Option String × SpanAttrs) → Option String → SpanAttrs →
    List (Option String × SpanAttrs)
  | [], k, v => [(k, v)]
  | p :: rest, k, v =>
    if p.1 == k then (k, v) :: rest else p :: saSet rest k v

/-- In-place mutation of the entry at key `k` (used for the `self.span(name)`
accessor of the base tracer, modelled from the spec as the span-attributes
entry for that name). -/
def saModify : List (Option String × SpanAttrs) → Option String →
    (SpanAttrs → SpanAttrs) → List (Option String × SpanAttrs)
  | [], _, _ => []
  | p :: rest, k, f =>
    if p.1 == k then (p.1, f p.2) :: rest else p :: saModify rest k f

/-- The `run_manager` probe of `create_llm_component`: if the parameters
contain a key `run_manager` whose value has a `metadata` attribute, that
metadata dict is merged into the display dict first. -/
def runManagerMetadata (params : List (String × Value)) :
    List (String × Value) :=
  match dictGet params "run_manager" with
  | some (Value.vObj (some md)) => md
  | _ => []

/-- The display projection of `create_llm_component`: start from the
`run_manager` metadata (if any), then add every scalar-valued parameter in
order, then keep only the first `maxDisplay` entries. -/
def paramsToDisplay (maxDisplay : Nat) (params : List (String × Value)) :
    List (String × Value) :=
  let base := dictUpdate [] (runManagerMetadata params)
  let filled := params.foldl
    (fun d kv => if isScalarV kv.2 then dictSet d kv.1 kv.2 else d) base
  filled.take maxDisplay

/-- The metric de-duplication loop of `create_llm_component`: for each raw
metric, count the already-visited names that start with its name; a positive
count appends a numeric suffix; the assigned name is appended to the visited
list. Returns the grown visited list and the renamed metrics. -/
def metricDedup (visited : List String) (raw : List Metric) :
    List String × List Metric :=
  raw.foldl
    (fun acc metric =>
      let base := metric.mname
      let counter := (acc.1.filter (fun x => pyStarts x base)).length
      let newName := if counter > 0 then base ++ "_" ++ toString counter else base
      (acc.1 ++ [newName], acc.2 ++ [{ metric with mname := newName }]))
    (visited, [])

/-- Modelled from the spec: `add_component` is defined on the base tracer
(outside this source file); per §4.3 it appends the finished component to
the chain's output sink. The `is_error` flag it is sometimes passed does not
change the append. -/
def add_component (s : TracerState) (comp : Component) : TracerState :=
  { s with components := s.components ++ [comp] }

/-- `start_component`: open an empty network-call buffer for the id and mark
it current. -/
def start_component (s : TracerState) (component_id : String) : TracerState :=
  { s with
    component_network_calls := dictSet s.component_network_calls component_id [],
    current_component_id := some component_id }

/-- `end_component`: clear the current component id. (Nothing else: the
buffer entry itself stays in `component_network_calls`.) -/
def end_component (s : TracerState) (component_id : String) : TracerState :=
  { s with current_component_id := none }

/-- `create_llm_component`: merge token/cost totals into the cumulative
counters, snapshot the buffers, project the display parameters, consume the
span's declared tags and metrics (de-duplicating metric names against the
tracer-level visited list), assemble the component dict, and reset the
span-attributes entry for the name. Returns the component and the updated
tracer state. -/
def create_llm_component (s : TracerState) (component_id hash_id nameArg llm_type : String)
    (version : Option String) (memory_used : Int) (start_time end_time : String)
    (input_data : Value) (output_data : Option Value)
    (cost : List (String × Rat)) (usage : List (String × Nat))
    (error : Option ErrorEnv) (parameters : List (String × Value)) :
    Component × TracerState :=
  let newTotalTokens := s.total_tokens + dictGetD usage "total_tokens" 0
  let newTotalCost := s.total_cost + dictGetD cost "total_cost" 0
  let network_calls :=
    if s.auto_instrument_network then
      dictGetD s.component_network_calls component_id []
    else []
  let interactions :=
    if s.auto_instrument_user_interaction then
      dictGetD s.component_user_interaction component_id []
    else []
  let display := paramsToDisplay MAX_PARAMETERS_TO_DISPLAY parameters
  let tags :=
    match saGet s.span_attributes_dict (some nameArg) with
    | some sa => sa.tags
    | none => []
  let rawMetrics :=
    match saGet s.span_attributes_dict (some nameArg) with
    | some sa => sa.metrics
    | none => []
  let dedup := metricDedup s.visited_metrics rawMetrics
  let gtVal :=
    match s.gt with
    | some v => if isTruthy v then some v else none
    | none => none
  let comp : Component :=
    { id := component_id, hash_id := hash_id, source_hash_id := none,
      ctype := "llm", cname := some nameArg,
      start_time := start_time, end_time := end_time,
      error := error, parent_id := s.current_agent_id,
      info_model := llm_type, info_version := version,
      info_memory_used := memory_used, info_cost := cost, info_tokens := usage,
      info_tags := tags, info_display := display, extra_info := parameters,
      data_input := input_data, data_output := output_data,
      data_memory_used := memory_used, data_gt := gtVal,
      metrics := dedup.2, network_calls := network_calls,
      interactions := interactions }
  (comp,
   { s with
     total_tokens := newTotalTokens,
     total_cost := newTotalCost,
     visited_metrics := dedup.1,
     span_attributes_dict :=
       saSet s.span_attributes_dict (some nameArg) (SpanAttrs.fresh (some nameArg)) })

/-- What a patched callable returns to its direct caller: an awaited value,
or (for a coroutine function invoked without awaiting) the unawaited
coroutine object, which carries the outcome it would produce when run. -/
inductive PyRet where
  | val : Value → PyRet
  | coroutineObj : Except Fault Value → PyRet

/-- The `RuntimeError` raised by `asyncio.run` when a loop is already running. -/
def runtimeLoopFault : Fault :=
  { ty := "RuntimeError",
    msg := "asyncio.run() cannot be called from a running event loop" }

/-- Models Python's `asyncio.run(coro)`: raises `RuntimeError` when called
from a running event loop, otherwise runs the coroutine to completion and
yields its outcome. -/
def asyncioRun (loopRunning : Bool) (coro : Except Fault Value) :
    Except Fault Value :=
  if loopRunning then .error runtimeLoopFault else coro

/-- One invocation of a patched callable, with everything the adapter reads
from the outside world: whether `original_func` is a coroutine function, its
`__name__`, the stable hash, the fresh uuid, the timestamps, the two memory
probes, the call's outcome, and the outputs of the extraction collaborators
(`extract_model_name`, `extract_token_usage`, `calculate_llm_cost`,
`extract_parameters`, `extract_input_data` — on success and with result
`None` — and the `output_response` of `extract_llm_output`). -/
structure CallIn where
  isCoroutineFn : Bool
  funcName : String
  hashId : String
  componentId : String
  startTime : String
  endTime : String
  startMem : Int
  endMem : Int
  outcome : Except Fault Value
  modelName : String
  tokenUsage : List (String × Nat)
  llmCost : List (String × Rat)
  callParams : List (String × Value)
  inputData : Value
  inputDataOnError : Value
  outputData : Option Value

/-- The result of invoking `original_func(*args, **kwargs)` with its native
calling convention: a coroutine function hands back its coroutine object
without raising; a plain function returns its value or raises. -/
def callNative (c : CallIn) : Except Fault PyRet :=
  if c.isCoroutineFn then .ok (PyRet.coroutineObj c.outcome)
  else c.outcome.map PyRet.val

/-- `trace_llm_call_sync`: the blocking entry point of the invocation
adapter. `loopRunning` says whether an asyncio event loop is already running
in the calling thread (this matters for the `asyncio.run` branches). -/
def trace_llm_call_sync (s : TracerState) (c : CallIn) (loopRunning : Bool) :
    Except Fault PyRet × TracerState :=
  if !s.is_active then
    if c.isCoroutineFn then
      ((asyncioRun loopRunning c.outcome).map PyRet.val, s)
    else (c.outcome.map PyRet.val, s)
  else if !s.auto_instrument_llm then
    (callNative c, s)
  else
    let s1 := start_component s c.componentId
    let execRes :=
      if c.isCoroutineFn then asyncioRun loopRunning c.outcome else c.outcome
    match execRes with
    | .ok r =>
      let memory_used := max 0 (c.endMem - c.startMem)
      let s2 := end_component s1 c.componentId
      let nameUsed :=
        match s2.current_llm_call_name with
        | some n => n
        | none => c.funcName
      let cs := create_llm_component s2 c.componentId c.hashId nameUsed
        c.modelName none memory_used c.startTime c.endTime c.inputData
        c.outputData c.llmCost c.tokenUsage none c.callParams
      let s4 := { cs.2 with llm_data := cs.1 }
      let s5 := add_component s4 cs.1
      (.ok (PyRet.val r), s5)
    | .error e =>
      let errEnv : ErrorEnv := { code := some 500, ty := e.ty, msg := e.msg }
      let s2 := end_component s1 c.componentId
      let nameUsed :=
        match s2.current_llm_call_name with
        | some n => n
        | none => c.funcName
      let memory_used := max 0 (c.endMem - c.startMem)
      let cs := create_llm_component s2 c.componentId c.hashId nameUsed
        "unknown" none memory_used c.startTime c.endTime c.inputDataOnError
        none [] [] (some errEnv) []
      let s4 := { cs.2 with llm_data := cs.1 }
      let s5 := add_component s4 cs.1
      (.error e, s5)

/-- `trace_llm_call`: the awaiting entry point of the invocation adapter;
its caller awaits it, so the returned value is the awaited result. On the
success path the `add_component` call is commented out in the source: only
`self.llm_data` is set. On the failure path no `llm_data` is set and
`memory_used` is `0`. -/
def trace_llm_call (s : TracerState) (c : CallIn) :
    Except Fault Value × TracerState :=
  if !s.is_active then (c.outcome, s)
  else if !s.auto_instrument_llm then (c.outcome, s)
  else
    let s1 := start_component s c.componentId
    match c.outcome with
    | .ok r =>
      let memory_used := max 0 (c.endMem - c.startMem)
      let s2 := end_component s1 c.componentId
      let nameUsed :=
        match s2.current_llm_call_name with
        | some n => n
        | none => c.funcName
      let cs := create_llm_component s2 c.componentId c.hashId nameUsed
        c.modelName none memory_used c.startTime c.endTime c.inputData
        c.outputData c.llmCost c.tokenUsage none c.callParams
      let s4 := { cs.2 with llm_data := cs.1 }
      (.ok r, s4)
    | .error e =>
      let errEnv : ErrorEnv := { code := some 500, ty := e.ty, msg := e.msg }
      let s2 := end_component s1 c.componentId
      let nameUsed :=
        match s2.current_llm_call_name with
        | some n => n
        | none => c.funcName
      let cs := create_llm_component s2 c.componentId c.hashId nameUsed
        "unknown" none 0 c.startTime c.endTime c.inputDataOnError
        none [] [] (some errEnv) []
      let s4 := add_component cs.2 cs.1
      (.error e, s4)

/-- The `finally` block body shared by the decorator wrappers is inlined in
each wrapper below. `sync_wrapper` of `trace_llm(...)`: set `self.gt` and the
call-name context variable, pass straight through when inactive; otherwise
open a buffer, run the decorated function (`inner`, which may itself drive
the adapter and mutate tracer state), and in the `finally` block take
`self.llm_data`, stamp the name, attach the error envelope if the function
raised, route it to the parent's children or the sink, end the component,
write the interactions field and route it again. -/
def sync_wrapper (s : TracerState) (wname : Option String) (gtArg : Option Value)
    (cid : String)
    (inner : TracerState → Except Fault Value × TracerState) :
    Except Fault Value × TracerState :=
  let s0 := { s with gt := gtArg, current_llm_call_name := wname }
  if !s0.is_active then inner s0
  else
    let parentAgentId := s0.current_agent_id
    let s1 := start_component s0 cid
    let res := (inner s1).1
    let s2 := (inner s1).2
    let errorInfo : Option ErrorEnv :=
      match res with
      | .ok _ => none
      | .error e => some { code := none, ty := e.ty, msg := e.msg }
    let comp0 := s2.llm_data
    let comp1 :=
      if wname.isSome || !(wname == some "") then { comp0 with cname := wname }
      else comp0
    let comp2 :=
      match errorInfo with
      | some env => { comp1 with error := some env }
      | none => comp1
    let s3 :=
      if parentAgentId.isSome then
        { s2 with agent_children := s2.agent_children ++ [comp2] }
      else add_component s2 comp2
    let s4 := end_component s3 cid
    let comp3 :=
      { comp2 with
        interactions := dictGetD s4.component_user_interaction cid [] }
    let s5 := add_component s4 comp3
    (res, s5)

/-- `async_wrapper` of `trace_llm(...)`: same as `sync_wrapper` but it also
copies a truthy `self.gt` into the component's data before routing. -/
def async_wrapper (s : TracerState) (wname : Option String) (gtArg : Option Value)
    (cid : String)
    (inner : TracerState → Except Fault Value × TracerState) :
    Except Fault Value × TracerState :=
  let s0 := { s with gt := gtArg, current_llm_call_name := wname }
  if !s0.is_active then inner s0
  else
    let parentAgentId := s0.current_agent_id
    let s1 := start_component s0 cid
    let res := (inner s1).1
    let s2 := (inner s1).2
    let errorInfo : Option ErrorEnv :=
      match res with
      | .ok _ => none
      | .error e => some { code := none, ty := e.ty, msg := e.msg }
    let comp0 := s2.llm_data
    let comp1 :=
      if wname.isSome || !(wname == some "") then { comp0 with cname := wname }
      else comp0
    let comp1g :=
      match s2.gt with
      | some v => if isTruthy v then { comp1 with data_gt := some v } else comp1
      | none => comp1
    let comp2 :=
      match errorInfo with
      | some env => { comp1g with error := some env }
      | none => comp1g
    let s3 :=
      if parentAgentId.isSome then
        { s2 with agent_children := s2.agent_children ++ [comp2] }
      else add_component s2 comp2
    let s4 := end_component s3 cid
    let comp3 :=
      { comp2 with
        interactions := dictGetD s4.component_user_interaction cid [] }
    let s5 := add_component s4 comp3
    (res, s5)

/-- A metric argument passed to `trace_llm`: a Python dict. -/
abbrev MetricArg : Type := List (String × Value)

/-- Does the metric dict carry the required fields: a string under
`"name"` and any value under `"score"`? -/
def validMetricArg (m : MetricArg) : Bool :=
  (match dictGet m "name" with
   | some (Value.vStr _) => true
   | _ => false) && (dictGet m "score").isSome

/-- The metric record registered for a valid argument (total function; only
meaningful when `validMetricArg` holds). -/
def metricOf (m : MetricArg) : Metric :=
  { mname :=
      match dictGet m "name" with
      | some (Value.vStr n) => n
      | _ => "",
    score := (dictGet m "score").getD (Value.vInt 0) }

/-- The `for metric in metrics:` loop of `trace_llm`, run inside one `try`:
each entry is read (`metric["name"]`, `metric["score"]`) and registered via
`add_metrics` (modelled from the spec as appending the entry); a missing or
ill-typed required field raises, which aborts the loop — entries already
registered stay registered, and the fault is reported to the surrounding
handler (which only logs it). -/
def addMetricsLoop (sa : SpanAttrs) : List MetricArg → SpanAttrs × Option Fault
  | [] => (sa, none)
  | m :: rest =>
    if validMetricArg m then
      addMetricsLoop { sa with metrics := sa.metrics ++ [metricOf m] } rest
    else (sa, some { ty := "KeyError", msg := "missing required metric field" })

/-- The registration phase of `trace_llm(name, tags, metadata, metrics,
feedback)` (everything before the decorator is returned): ensure a
span-attributes entry exists for the name, register tags, metadata and
metrics (the metric loop may be cut short by an invalid entry, whose fault
is caught and logged), register truthy feedback, and set the call-name
context variable. Total: it never propagates a fault. -/
def trace_llm_register (s : TracerState) (wname : Option String)
    (tags : List String) (metadata : List (String × Value))
    (metrics : List MetricArg) (feedback : Option Value) : TracerState :=
  let d0 :=
    if (saGet s.span_attributes_dict wname).isSome then s.span_attributes_dict
    else saSet s.span_attributes_dict wname (SpanAttrs.fresh wname)
  let d1 :=
    if tags.isEmpty then d0
    else saModify d0 wname (fun sa => { sa with tags := sa.tags ++ tags })
  let d2 :=
    if metadata.isEmpty then d1
    else saModify d1 wname
      (fun sa => { sa with metadata := dictUpdate sa.metadata metadata })
  let d3 :=
    if metrics.isEmpty then d2
    else saModify d2 wname (fun sa => (addMetricsLoop sa metrics).1)
  let d4 :=
    match feedback with
    | some f =>
      if isTruthy f then
        saModify d3 wname (fun sa => { sa with feedback := some f })
      else d3
    | none => d3
  { s with span_attributes_dict := d4, current_llm_call_name := wname }

/-- The attribute environment of the patched objects: which callable (by
identity) each `(object, method name)` slot currently holds. -/
abbrev AttrEnv : Type := List ((Nat × String) × Nat)

/-- `setattr(obj, method_name, original_method)`. -/
def setattrEnv : AttrEnv → Nat → String → Nat → AttrEnv
  | [], obj, m, v => [((obj, m), v)]
  | p :: rest, obj, m, v =>
    if p.1 == (obj, m) then ((obj, m), v) :: rest
    else p :: setattrEnv rest obj m v

/-- Current holder of the slot `(obj, m)`. -/
def lookupAttr : AttrEnv → Nat → String → Option Nat
  | [], _, _ => none
  | p :: rest, obj, m =>
    if p.1 == (obj, m) then some p.2 else lookupAttr rest obj m

/-- `unpatch_llm_calls`: iterate over every recorded patch and try to restore
the original (`fails` says which `setattr` calls raise; a failure is only
printed and the loop continues); afterwards clear the registry. Returns the
new tracer state and the restored attribute environment. -/
def unpatch_llm_calls (s : TracerState) (env : AttrEnv)
    (fails : Nat → String → Bool) : TracerState × AttrEnv :=
  let env' := s.patches.foldl
    (fun e p => if fails p.1 p.2.1 then e else setattrEnv e p.1 p.2.1 p.2.2) env
  ({ s with patches := [] }, env')

/-- A tracer in its post-construction state with the master switch on and
LLM auto-instrumentation enabled, everything else fresh. -/
def initState : TracerState :=
  { is_active := true, auto_instrument_llm := true,
    auto_instrument_user_interaction := false, auto_instrument_network := false,
    total_tokens := 0, total_cost := 0,
    component_network_calls := [], component_user_interaction := [],
    current_component_id := none, current_llm_call_name := none,
    current_agent_id := none, agent_children := [],
    span_attributes_dict := [], visited_metrics := [],
    llm_data := emptyComponent, gt := none, components := [], patches := [] }

/-- A concrete successful invocation: one prompt/completion call returning
an integer payload. -/
def callOk : CallIn :=
  { isCoroutineFn := false, funcName := "create", hashId := "h1",
    componentId := "cid-1", startTime := "t0", endTime := "t1",
    startMem := 100, endMem := 160, outcome := .ok (Value.vInt 7),
    modelName := "model-x", tokenUsage := [("total_tokens", 15)],
    llmCost := [], callParams := [("temperature", Value.vFloat 1)],
    inputData := Value.vStr "prompt", inputDataOnError := Value.vStr "prompt",
    outputData := some (Value.vStr "answer") }

/-- The same invocation raising `ValueError("bad request")`. -/
def callErr : CallIn :=
  { callOk with
    outcome := .error { ty := "ValueError", msg := "bad request" } }

/-- The successful invocation as an async (coroutine) callable. -/
def callOkAsync : CallIn :=
  { callOk with isCoroutineFn := true }

theorem create_snd_components (s : TracerState) (a b nm lt : String)
    (v : Option String) (mu : Int) (st et : String) (inp : Value)
    (out : Option Value) (cost : List (String × Rat)) (usage : List (String × Nat))
    (err : Option ErrorEnv) (ps : List (String × Value)) :
    (create_llm_component s a b nm lt v mu st et inp out cost usage err ps).2.components
      = s.components := rfl

theorem create_snd_agent_children (s : TracerState) (a b nm lt : String)
    (v : Option String) (mu : Int) (st et : String) (inp : Value)
    (out : Option Value) (cost : List (String × Rat)) (usage : List (String × Nat))
    (err : Option ErrorEnv) (ps : List (String × Value)) :
    (create_llm_component s a b nm lt v mu st et inp out cost usage err ps).2.agent_children
      = s.agent_children := rfl

theorem create_snd_network (s : TracerState) (a b nm lt : String)
    (v : Option String) (mu : Int) (st et : String) (inp : Value)
    (out : Option Value) (cost : List (String × Rat)) (usage : List (String × Nat))
    (err : Option ErrorEnv) (ps : List (String × Value)) :
    (create_llm_component s a b nm lt v mu st et inp out cost usage err ps).2.component_network_calls
      = s.component_network_calls := rfl

theorem create_fst_error (s : TracerState) (a b nm lt : String)
    (v : Option String) (mu : Int) (st et : String) (inp : Value)
    (out : Option Value) (cost : List (String × Rat)) (usage : List (String × Nat))
    (err : Option ErrorEnv) (ps : List (String × Value)) :
    (create_llm_component s a b nm lt v mu st et inp out cost usage err ps).1.error
      = err := rfl

theorem create_fst_id (s : TracerState) (a b nm lt : String)
    (v : Option String) (mu : Int) (st et : String) (inp : Value)
    (out : Option Value) (cost : List (String × Rat)) (usage : List (String × Nat))
    (err : Option ErrorEnv) (ps : List (String × Value)) :
    (create_llm_component s a b nm lt v mu st et inp out cost usage err ps).1.id
      = a := rfl

theorem create_fst_extra_info (s : TracerState) (a b nm lt : String)
    (v : Option String) (mu : Int) (st et : String) (inp : Value)
    (out : Option Value) (cost : List (String × Rat)) (usage : List (String × Nat))
    (err : Option ErrorEnv) (ps : List (String × Value)) :
    (create_llm_component s a b nm lt v mu st et inp out cost usage err ps).1.extra_info
      = ps := rfl

theorem create_fst_display (s : TracerState) (a b nm lt : String)
    (v : Option String) (mu : Int) (st et : String) (inp : Value)
    (out : Option Value) (cost : List (String × Rat)) (usage : List (String × Nat))
    (err : Option ErrorEnv) (ps : List (String × Value)) :
    (create_llm_component s a b nm lt v mu st et inp out cost usage err ps).1.info_display
      = paramsToDisplay MAX_PARAMETERS_TO_DISPLAY ps := rfl

theorem create_fst_metrics (s : TracerState) (a b nm lt : String)
    (v : Option String) (mu : Int) (st et : String) (inp : Value)
    (out : Option Value) (cost : List (String × Rat)) (usage : List (String × Nat))
    (err : Option ErrorEnv) (ps : List (String × Value)) :
    (create_llm_component s a b nm lt v mu st et inp out cost usage err ps).1.metrics
      = (metricDedup s.visited_metrics
          (match saGet s.span_attributes_dict (some nm) with
           | some sa => sa.metrics
           | none => [])).2 := rfl

theorem create_snd_visited (s : TracerState) (a b nm lt : String)
    (v : Option String) (mu : Int) (st et : String) (inp : Value)
    (out : Option Value) (cost : List (String × Rat)) (usage : List (String × Nat))
    (err : Option ErrorEnv) (ps : List (String × Value)) :
    (create_llm_component s a b nm lt v mu st et inp out cost usage err ps).2.visited_metrics
      = (metricDedup s.visited_metrics
          (match saGet s.span_attributes_dict (some nm) with
           | some sa => sa.metrics
           | none => [])).1 := rfl

/-- C5. When the tracer is inactive or LLM auto-instrumentation is disabled,
trace_llm_call_sync with a coroutine function does NOT return the wrapped
call's (native) result unchanged: the native call yields the coroutine
object, but the adapter returns the awaited value. Concretely, with the
tracer inactive and a coroutine callable returning 7, the adapter returns
`ok (val 7)` while the native call returns the coroutine object — they
differ, refuting the claim's "returns the wrapped call's result unchanged"
in this corner. -/
theorem claim_C5_counterexample :
    (trace_llm_call_sync { initState with is_active := false } callOkAsync false).1
      = Except.ok (PyRet.val (Value.vInt 7)) ∧
    callNative callOkAsync
      = Except.ok (PyRet.coroutineObj (Except.ok (Value.vInt 7))) ∧
    (trace_llm_call_sync { initState with is_active := false } callOkAsync false).1
      ≠ callNative callOkAsync := by
  have h1 : (trace_llm_call_sync { initState with is_active := false } callOkAsync false).1
      = Except.ok (PyRet.val (Value.vInt 7)) := rfl
  have h2 : callNative callOkAsync
      = Except.ok (PyRet.coroutineObj (Except.ok (Value.vInt 7))) := rfl
  refine ⟨h1, h2, ?_⟩
  rw [h1, h2]
  intro h
  simp at h

/-- C5 (amended). When the tracer is inactive or LLM auto-instrumentation is
disabled, both adapter entry points leave the entire tracer state unchanged
(zero components, counters and buffers untouched) and return the wrapped
call's result unchanged — except that trace_llm_call_sync given a coroutine
function while the tracer is inactive returns the asyncio.run outcome of the
coroutine instead of the native coroutine object. -/
theorem claim_C5 (s : TracerState) (c : CallIn) (loop : Bool)
    (h : s.is_active = false ∨ s.auto_instrument_llm = false) :
    (trace_llm_call_sync s c loop).2 = s ∧
    (trace_llm_call s c).2 = s ∧
    (trace_llm_call s c).1 = c.outcome ∧
    (s.is_active = false → c.isCoroutineFn = true →
      (trace_llm_call_sync s c loop).1 = (asyncioRun loop c.outcome).map PyRet.val) ∧
    (s.is_active = false → c.isCoroutineFn = false →
      (trace_llm_call_sync s c loop).1 = c.outcome.map PyRet.val) ∧
    (s.is_active = true →
      (trace_llm_call_sync s c loop).1 = callNative c) := by
  rcases h with h | h
  · cases hc : c.isCoroutineFn <;>
      simp [trace_llm_call_sync, trace_llm_call, h, hc]
  · cases ha : s.is_active <;> cases hc : c.isCoroutineFn <;>
      simp [trace_llm_call_sync, trace_llm_call, ha, h, hc, callNative]

/-- C5 witness: the amended statement holds at a concrete disabled tracer. -/
theorem claim_C5_witness :
    (({ initState with is_active := false } : TracerState).is_active = false ∨
      ({ initState with is_active := false } : TracerState).auto_instrument_llm = false) ∧
    (trace_llm_call_sync { initState with is_active := false } callOk false).2
      = { initState with is_active := false } :=
  ⟨Or.inl rfl,
   (claim_C5 { initState with is_active := false } callOk false (Or.inl rfl)).1⟩

/-- C10. With the tracer inactive and a coroutine function on the sync path,
the adapter does not hand back the coroutine object: it returns the
asyncio.run outcome — the awaited result on a fresh event loop, or a
RuntimeError when an event loop is already running — and leaves the state
unchanged. -/
theorem claim_C10 (s : TracerState) (c : CallIn) (loop : Bool)
    (h1 : s.is_active = false) (h2 : c.isCoroutineFn = true) :
    (trace_llm_call_sync s c loop).1 =
      (if loop then Except.error runtimeLoopFault else c.outcome.map PyRet.val) ∧
    (trace_llm_call_sync s c loop).1 ≠ Except.ok (PyRet.coroutineObj c.outcome) ∧
    (loop = true →
      (trace_llm_call_sync s c loop).1 = Except.error runtimeLoopFault) ∧
    (trace_llm_call_sync s c loop).2 = s := by
  cases loop <;> cases ho : c.outcome <;>
    simp [trace_llm_call_sync, asyncioRun, h1, h2, ho, Except.map]

/-- C10 witness: concrete inactive tracer, coroutine callable returning 7,
no running loop. -/
theorem claim_C10_witness :
    (({ initState with is_active := false } : TracerState).is_active = false ∧
      callOkAsync.isCoroutineFn = true) ∧
    (trace_llm_call_sync { initState with is_active := false } callOkAsync false).1 =
      (if false then Except.error runtimeLoopFault else callOkAsync.outcome.map PyRet.val) :=
  ⟨⟨rfl, rfl⟩,
   (claim_C10 { initState with is_active := false } callOkAsync false rfl rfl).1⟩

/-- C1. Counterexample to "exactly one component is routed on both paths":
on the asynchronous success path (`trace_llm_call`, the `add_component` call
being commented out in the source) a concrete successful invocation under an
active tracer with LLM auto-instrumentation on routes nothing — the output
sink and the agent-children buffer are exactly as before the call. -/
theorem claim_C1_counterexample :
    initState.is_active = true ∧ initState.auto_instrument_llm = true ∧
    (trace_llm_call initState callOkAsync).2.components = initState.components ∧
    (trace_llm_call initState callOkAsync).2.agent_children = initState.agent_children := by
  exact ⟨rfl, rfl, rfl, rfl⟩

/-- C1 (amended). With the tracer active and LLM auto-instrumentation on,
exactly one component is built per invocation; it is routed via
add_component on the synchronous path (success and failure) and on the
asynchronous failure path, but on the asynchronous success path it is only
stored in the tracer's llm_data field and not routed (neither the sink nor
any agent-children buffer grows). -/
theorem claim_C1 (s : TracerState) (c : CallIn)
    (ha : s.is_active = true) (hl : s.auto_instrument_llm = true) :
    ((trace_llm_call_sync s c false).2.components.length = s.components.length + 1 ∧
      (trace_llm_call_sync s c false).2.agent_children = s.agent_children) ∧
    (∀ e, c.outcome = .error e →
      (trace_llm_call s c).2.components.length = s.components.length + 1 ∧
      (trace_llm_call s c).2.agent_children = s.agent_children) ∧
    (∀ r, c.outcome = .ok r →
      (trace_llm_call s c).2.components = s.components ∧
      (trace_llm_call s c).2.agent_children = s.agent_children ∧
      (trace_llm_call s c).2.llm_data.id = c.componentId) := by
  cases hc : c.outcome <;>
    simp [trace_llm_call_sync, trace_llm_call, add_component, start_component,
      end_component, ha, hl, hc, asyncioRun, create_snd_components,
      create_snd_agent_children, create_fst_id]

/-- C1 witness: the amended statement at a concrete active tracer and a
concrete successful call. -/
theorem claim_C1_witness :
    (initState.is_active = true ∧ initState.auto_instrument_llm = true) ∧
    (trace_llm_call_sync initState callOk false).2.components.length
      = initState.components.length + 1 :=
  ⟨⟨rfl, rfl⟩, (claim_C1 initState callOk rfl rfl).1.1⟩

/-- C2. With the tracer active and LLM auto-instrumentation on, a wrapped
call that raises fault e still builds and routes exactly one component whose
error envelope carries e's type name and message (with code 500), and the
adapter re-raises the very same fault e to the caller, on both the
synchronous and the asynchronous path. -/
theorem claim_C2 (s : TracerState) (c : CallIn) (e : Fault)
    (ha : s.is_active = true) (hl : s.auto_instrument_llm = true)
    (hc : c.outcome = .error e) :
    (trace_llm_call_sync s c false).1 = .error e ∧
    (trace_llm_call_sync s c false).2.components.length = s.components.length + 1 ∧
    ((trace_llm_call_sync s c false).2.components.getLast?).map Component.error
      = some (some { code := some 500, ty := e.ty, msg := e.msg }) ∧
    (trace_llm_call s c).1 = .error e ∧
    (trace_llm_call s c).2.components.length = s.components.length + 1 ∧
    ((trace_llm_call s c).2.components.getLast?).map Component.error
      = some (some { code := some 500, ty := e.ty, msg := e.msg }) := by
  simp [trace_llm_call_sync, trace_llm_call, add_component, start_component,
    end_component, ha, hl, hc, asyncioRun, create_snd_components,
    create_fst_error, List.getLast?_concat]

/-- C2 witness: the concrete failing call raising ValueError "bad request"
under an active tracer. -/
theorem claim_C2_witness :
    (initState.is_active = true ∧ initState.auto_instrument_llm = true ∧
      callErr.outcome = .error { ty := "ValueError", msg := "bad request" }) ∧
    (trace_llm_call_sync initState callErr false).1
      = .error { ty := "ValueError", msg := "bad request" } :=
  ⟨⟨rfl, rfl, rfl⟩,
   (claim_C2 initState callErr { ty := "ValueError", msg := "bad request" }
      rfl rfl rfl).1⟩

/-- C3. The decorator facade publishes one invocation's component twice: in
the finally block of sync_wrapper the component is routed once before
end_component (to the parent's children or to the sink) and then, after the
interactions field is written into it, routed a second time via
add_component unconditionally. For a concrete active tracer with no parent
agent and a decorated function performing no further instrumented call, one
invocation grows the output sink by two entries — the claim's single
CREATED → … → PUBLISHED transition with no mutation after publishing is
violated by the code. -/
theorem claim_C3_publish_twice :
    (sync_wrapper initState (some "sp") none "wid"
      (fun st => (Except.ok (Value.vInt 1), st))).2.components.length = 2 ∧
    (async_wrapper initState (some "sp") none "wid"
      (fun st => (Except.ok (Value.vInt 1), st))).2.components.length = 2 := by
  exact ⟨rfl, rfl⟩

/-- A tracer state whose span-attributes entry for "sp" declares the metric
name "m_1" and then "m" (scores irrelevant), visited list fresh. -/
def stateM1M : TracerState :=
  { initState with
    span_attributes_dict :=
      [(some "sp",
        { sname := some "sp", tags := [], metadata := [],
          metrics := [{ mname := "m_1", score := Value.vInt 1 },
                      { mname := "m", score := Value.vInt 2 }],
          feedback := none })] }

/-- C4. Counterexample to metric-name uniqueness within one component: the
suffix counter counts visited names that merely START WITH the new name, so
declaring "m_1" and then "m" for one span yields a single component whose
metrics are named "m_1" and "m_1" — a collision inside one component. -/
theorem claim_C4_counterexample :
    ((create_llm_component stateM1M "cid" "h" "sp" "model-x" none 0 "t0" "t1"
        (Value.vStr "in") none [] [] none []).1.metrics.map Metric.mname)
      = ["m_1", "m_1"] := by
  exact rfl

/-- C4 (amended). The collision suffix is computed by counting the
previously assigned names that start with the new name as a prefix, over the
tracer-level visited_metrics list, which persists across components rather
than being scoped to one component. On a tracer whose visited list is fresh,
registering the metric name "m" twice for one span does yield metrics named
"m" and "m_1" in that component — and the grown visited list ["m", "m_1"]
stays in the tracer state after the build. -/
theorem claim_C4 (s : TracerState) (cid hid lt : String) (v : Option String)
    (mu : Int) (st et : String) (inp : Value) (out : Option Value)
    (nm : String) (x y : Value) (sa : SpanAttrs)
    (hv : s.visited_metrics = [])
    (h1 : saGet s.span_attributes_dict (some nm) = some sa)
    (h2 : sa.metrics = [{ mname := "m", score := x }, { mname := "m", score := y }]) :
    ((create_llm_component s cid hid nm lt v mu st et inp out [] [] none []).1.metrics.map
        Metric.mname) = ["m", "m_1"] ∧
    (create_llm_component s cid hid nm lt v mu st et inp out [] [] none []).2.visited_metrics
      = ["m", "m_1"] := by
  rw [create_fst_metrics, create_snd_visited, h1, hv]
  dsimp only
  have hnames : ∀ z w : Value,
      (metricDedup [] [{ mname := "m", score := z }, { mname := "m", score := w }]).2.map
        Metric.mname = ["m", "m" ++ "_" ++ toString 1] := by
    intro z w
    rfl
  have hvisited : ∀ z w : Value,
      (metricDedup [] [{ mname := "m", score := z }, { mname := "m", score := w }]).1
        = ["m", "m" ++ "_" ++ toString 1] := by
    intro z w
    rfl
  have hstr : ("m" ++ "_" ++ toString 1 : String) = "m_1" := rfl
  rw [h2, hnames x y, hvisited x y, hstr]
  exact ⟨rfl, rfl⟩

/-- The span-attributes entry declaring "m" twice. -/
def saMM : SpanAttrs :=
  { sname := some "sp", tags := [], metadata := [],
    metrics := [{ mname := "m", score := Value.vInt 1 },
                { mname := "m", score := Value.vInt 2 }],
    feedback := none }

/-- A fresh tracer whose span "sp" registered "m" twice. -/
def stateMM : TracerState :=
  { initState with span_attributes_dict := [(some "sp", saMM)] }

/-- C4 witness: the amended statement at a concrete tracer whose span "sp"
registered "m" twice. -/
theorem claim_C4_witness :
    stateMM.visited_metrics = [] ∧
    saGet stateMM.span_attributes_dict (some "sp") = some saMM ∧
    ((create_llm_component stateMM "cid" "h" "sp" "model-x" none 0 "t0" "t1"
        (Value.vStr "in") none [] [] none []).1.metrics.map Metric.mname)
      = ["m", "m_1"] :=
  ⟨rfl, rfl,
   (claim_C4 stateMM "cid" "h" "model-x" none 0 "t0" "t1" (Value.vStr "in") none
      "sp" (Value.vInt 1) (Value.vInt 2) saMM rfl rfl rfl).1⟩

theorem dictGet_dictSet_self {α : Type} (d : List (String × α)) (k : String)
    (v : α) : dictGet (dictSet d k v) k = some v := by
  induction d with
  | nil => simp [dictGet, dictSet]
  | cons p rest ih =>
    by_cases h : p.1 == k
    · simp [dictSet, h, dictGet]
    · simp [dictSet, h, dictGet, ih]

/-- C7. Counterexample to "after end_component the buffer entry itself is
discarded": a full successful synchronous invocation (which runs
start_component and then end_component on its id) leaves the network-call
buffer entry for that id in the tracer's state. -/
theorem claim_C7_counterexample :
    dictGet (trace_llm_call_sync initState callOk false).2.component_network_calls
        "cid-1" = some [] ∧
    (trace_llm_call_sync initState callOk false).2.current_component_id = none := by
  exact ⟨rfl, rfl⟩

/-- C7 (amended). start_component creates an empty network-call buffer for
the id and marks it current; the built component copies the buffer contents
(when network auto-instrumentation is on); but end_component only clears the
current id — the buffer entry itself persists in the tracer's state. -/
theorem claim_C7 (s : TracerState) (cid : String) :
    dictGet (start_component s cid).component_network_calls cid = some [] ∧
    (start_component s cid).current_component_id = some cid ∧
    (end_component s cid).component_network_calls = s.component_network_calls ∧
    (end_component s cid).current_component_id = none ∧
    (∀ b nm lt v mu st et inp out cost usage err ps,
      (create_llm_component s cid b nm lt v mu st et inp out cost usage err ps).1.network_calls
        = if s.auto_instrument_network then
            dictGetD s.component_network_calls cid []
          else []) := by
  refine ⟨dictGet_dictSet_self s.component_network_calls cid [], rfl, rfl, rfl, ?_⟩
  intro b nm lt v mu st et inp out cost usage err ps
  by_cases h : s.auto_instrument_network <;>
    simp [create_llm_component, h]

theorem dictSet_append_of_not_mem {α : Type} (d : List (String × α)) (k : String)
    (v : α) (h : ∀ p ∈ d, p.1 ≠ k) : dictSet d k v = d ++ [(k, v)] := by
  induction d with
  | nil => rfl
  | cons p rest ih =>
    have hp : (p.1 == k) = false := by
      simpa using h p (List.mem_cons_self p rest)
    simp only [dictSet, hp, Bool.false_eq_true, if_false, List.cons_append,
      List.cons.injEq, true_and]
    exact ih (fun q hq => h q (List.mem_cons_of_mem p hq))

theorem scalarFold (ps : List (String × Value)) (acc : List (String × Value))
    (hnd : (ps.map Prod.fst).Nodup)
    (hdisj : ∀ kv ∈ ps, ∀ q ∈ acc, q.1 ≠ kv.1) :
    ps.foldl (fun d kv => if isScalarV kv.2 then dictSet d kv.1 kv.2 else d) acc
      = acc ++ ps.filter (fun kv => isScalarV kv.2) := by
  induction ps generalizing acc with
  | nil => simp
  | cons kv rest ih =>
    have hnd2 : kv.1 ∉ rest.map Prod.fst ∧ (rest.map Prod.fst).Nodup := by
      rw [List.map_cons] at hnd
      exact List.nodup_cons.mp hnd
    have hndRest : (rest.map Prod.fst).Nodup := hnd2.2
    have hheadNot : kv.1 ∉ rest.map Prod.fst := hnd2.1
    cases hsc : isScalarV kv.2
    · have hstep :
          (kv :: rest).foldl
            (fun d q => if isScalarV q.2 then dictSet d q.1 q.2 else d) acc
          = rest.foldl
            (fun d q => if isScalarV q.2 then dictSet d q.1 q.2 else d) acc := by
        simp [hsc]
      rw [hstep, ih acc hndRest
        (fun q hq r hr => hdisj q (List.mem_cons_of_mem kv hq) r hr)]
      simp [hsc]
    · have hnotin : ∀ p ∈ acc, p.1 ≠ kv.1 := fun p hp =>
        hdisj kv (List.mem_cons_self kv rest) p hp
      have hstep :
          (kv :: rest).foldl
            (fun d q => if isScalarV q.2 then dictSet d q.1 q.2 else d) acc
          = rest.foldl
            (fun d q => if isScalarV q.2 then dictSet d q.1 q.2 else d)
            (dictSet acc kv.1 kv.2) := by
        simp [hsc]
      rw [hstep, dictSet_append_of_not_mem acc kv.1 kv.2 hnotin]
      have hdisj2 : ∀ q ∈ rest, ∀ r ∈ acc ++ [(kv.1, kv.2)], r.1 ≠ q.1 := by
        intro q hq r hr
        rcases List.mem_append.mp hr with hr | hr
        · exact hdisj q (List.mem_cons_of_mem kv hq) r hr
        · have : r = (kv.1, kv.2) := by simpa using hr
          subst this
          intro hcontra
          exact hheadNot (by
            have : q.1 ∈ rest.map Prod.fst := List.mem_map_of_mem Prod.fst hq
            simpa [← hcontra] using this)
      rw [ih (acc ++ [(kv.1, kv.2)]) hndRest hdisj2]
      simp [hsc, List.append_assoc]

/-- The concrete parameters dict whose run_manager carries a structured
metadata value. -/
def paramsRM : List (String × Value) :=
  [("run_manager", Value.vObj (some [("k", Value.vList [])]))]

/-- C8. Counterexample to "the display projection contains only
scalar-valued entries": entries merged from a run_manager parameter's
metadata bypass the scalar filter, so a metadata entry holding a list lands
in the built component's display projection. -/
theorem claim_C8_counterexample :
    (create_llm_component initState "cid" "h" "sp" "model-x" none 0 "t0" "t1"
        (Value.vStr "in") none [] [] none paramsRM).1.info_display
      = [("k", Value.vList [])] ∧
    isScalarV (Value.vList []) = false := by
  exact ⟨rfl, rfl⟩

/-- C8 (amended). The display projection first merges the entries of a
run_manager parameter's metadata regardless of their type; when the
parameters carry no such metadata, it is exactly the scalar-valued
(string/integer/float/boolean) parameters in first-seen order capped at 10;
the cap holds for all parameter dicts, and the full parameters are always
retained in the component's extra-parameters field. -/
theorem claim_C8 (params : List (String × Value))
    (hnd : (params.map Prod.fst).Nodup)
    (hrm : runManagerMetadata params = []) :
    paramsToDisplay MAX_PARAMETERS_TO_DISPLAY params
      = (params.filter (fun kv => isScalarV kv.2)).take 10 ∧
    (∀ kv ∈ paramsToDisplay MAX_PARAMETERS_TO_DISPLAY params,
      isScalarV kv.2 = true) ∧
    (∀ q : List (String × Value),
      (paramsToDisplay MAX_PARAMETERS_TO_DISPLAY q).length ≤ 10) ∧
    (∀ s a b nm lt v mu st et inp out cost usage err,
      (create_llm_component s a b nm lt v mu st et inp out cost usage err
          params).1.info_display
        = paramsToDisplay MAX_PARAMETERS_TO_DISPLAY params ∧
      (create_llm_component s a b nm lt v mu st et inp out cost usage err
          params).1.extra_info = params) := by
  have hmain : paramsToDisplay MAX_PARAMETERS_TO_DISPLAY params
      = (params.filter (fun kv => isScalarV kv.2)).take 10 := by
    simp only [paramsToDisplay, hrm]
    have hbase : dictUpdate ([] : List (String × Value)) [] = [] := rfl
    rw [hbase, scalarFold params [] hnd (fun kv _ q hq => absurd hq (List.not_mem_nil q))]
    simp [MAX_PARAMETERS_TO_DISPLAY]
  refine ⟨hmain, ?_, ?_, ?_⟩
  · intro kv hkv
    rw [hmain] at hkv
    have h1 : kv ∈ params.filter (fun q => isScalarV q.2) :=
      List.mem_of_mem_take hkv
    simpa using List.of_mem_filter h1
  · intro q
    unfold paramsToDisplay
    simp [MAX_PARAMETERS_TO_DISPLAY]
  · intro s a b nm lt v mu st et inp out cost usage err
    exact ⟨rfl, rfl⟩

/-- C8 witness: concrete parameters with one scalar and one structured
entry and no run_manager metadata. -/
theorem claim_C8_witness :
    (([("temperature", Value.vFloat 1), ("messages", Value.vList [])].map
        Prod.fst).Nodup ∧
      runManagerMetadata
        [("temperature", Value.vFloat 1), ("messages", Value.vList [])] = []) ∧
    paramsToDisplay MAX_PARAMETERS_TO_DISPLAY
        [("temperature", Value.vFloat 1), ("messages", Value.vList [])]
      = ([("temperature", Value.vFloat 1), ("messages", Value.vList [])].filter
          (fun kv => isScalarV kv.2)).take 10 :=
  ⟨⟨by simp, rfl⟩,
   (claim_C8 [("temperature", Value.vFloat 1), ("messages", Value.vList [])]
      (by simp) rfl).1⟩

theorem addMetricsLoop_cons (sa : SpanAttrs) (m : MetricArg)
    (l : List MetricArg) :
    addMetricsLoop sa (m :: l)
      = if validMetricArg m then
          addMetricsLoop { sa with metrics := sa.metrics ++ [metricOf m] } l
        else (sa, some { ty := "KeyError", msg := "missing required metric field" }) := rfl

theorem addMetricsLoop_all_valid (sa : SpanAttrs) (ms : List MetricArg)
    (h : ∀ m ∈ ms, validMetricArg m = true) :
    (addMetricsLoop sa ms).1.metrics = sa.metrics ++ ms.map metricOf ∧
    (addMetricsLoop sa ms).2 = none := by
  induction ms generalizing sa with
  | nil => simp [addMetricsLoop]
  | cons m rest ih =>
    have hm := h m (List.mem_cons_self m rest)
    have hrec := ih { sa with metrics := sa.metrics ++ [metricOf m] }
      (fun q hq => h q (List.mem_cons_of_mem m hq))
    have heq : addMetricsLoop sa (m :: rest)
        = addMetricsLoop { sa with metrics := sa.metrics ++ [metricOf m] } rest := by
      rw [addMetricsLoop_cons]
      simp [hm]
    constructor
    · rw [heq, hrec.1]
      simp
    · rw [heq]
      exact hrec.2

theorem addMetricsLoop_stops (sa : SpanAttrs) (pre : List MetricArg)
    (bad : MetricArg) (post : List MetricArg)
    (hpre : ∀ m ∈ pre, validMetricArg m = true)
    (hbad : validMetricArg bad = false) :
    (addMetricsLoop sa (pre ++ bad :: post)).1.metrics
      = sa.metrics ++ pre.map metricOf ∧
    (addMetricsLoop sa (pre ++ bad :: post)).2.isSome = true := by
  induction pre generalizing sa with
  | nil =>
    rw [List.nil_append, addMetricsLoop_cons]
    simp [hbad]
  | cons m rest ih =>
    have hm := hpre m (List.mem_cons_self m rest)
    have hrec := ih { sa with metrics := sa.metrics ++ [metricOf m] }
      (fun q hq => hpre q (List.mem_cons_of_mem m hq))
    have heq : addMetricsLoop sa ((m :: rest) ++ bad :: post)
        = addMetricsLoop { sa with metrics := sa.metrics ++ [metricOf m] }
            (rest ++ bad :: post) := by
      rw [List.cons_append, addMetricsLoop_cons]
      simp [hm]
    constructor
    · rw [heq, hrec.1]
      simp
    · rw [heq]
      exact hrec.2

/-- The invalid metric dict: it has a name but no score. -/
def mBad : MetricArg := [("name", Value.vStr "m1")]

/-- A valid metric dict appearing after the invalid one. -/
def mGood : MetricArg := [("name", Value.vStr "m2"), ("score", Value.vInt 1)]

/-- C9. Counterexample to "every other (valid) entry in the list is still
registered": the try block wraps the whole for loop, so the first invalid
entry aborts the loop and the valid entry after it is never registered —
here the list [invalid, valid] leaves the span's metrics empty. -/
theorem claim_C9_counterexample :
    validMetricArg mBad = false ∧ validMetricArg mGood = true ∧
    (saGet (trace_llm_register initState (some "sp") [] [] [mBad, mGood]
        none).span_attributes_dict (some "sp")).map SpanAttrs.metrics
      = some [] := by
  exact ⟨rfl, rfl, rfl⟩

/-- C9 (amended). Each metric entry is checked for the required name and
score fields, but the check happens inside one try around the whole loop:
an invalid entry is logged and stops processing of the remaining entries —
the valid entries before it are registered, everything after it is skipped —
and with an all-valid list every entry is registered; in either case
trace_llm itself absorbs the fault and never raises. -/
theorem claim_C9 (s : TracerState) (nm : String) (pre : List MetricArg)
    (bad : MetricArg) (post : List MetricArg)
    (hs : s.span_attributes_dict = [])
    (hpre : ∀ m ∈ pre, validMetricArg m = true)
    (hbad : validMetricArg bad = false) :
    (saGet (trace_llm_register s (some nm) [] [] (pre ++ bad :: post)
        none).span_attributes_dict (some nm)).map SpanAttrs.metrics
      = some (pre.map metricOf) ∧
    (∀ ms : List MetricArg, (∀ m ∈ ms, validMetricArg m = true) →
      (saGet (trace_llm_register s (some nm) [] [] ms
          none).span_attributes_dict (some nm)).map SpanAttrs.metrics
        = some (ms.map metricOf)) := by
  have hne : (pre ++ bad :: post).isEmpty = false := by
    cases pre <;> rfl
  constructor
  · have hloop := addMetricsLoop_stops (SpanAttrs.fresh (some nm)) pre bad post
      hpre hbad
    simp only [SpanAttrs.fresh] at hloop
    simp [trace_llm_register, hs, saGet, saSet, saModify, hne,
      SpanAttrs.fresh, hloop.1]
  · intro ms hms
    cases hm : ms with
    | nil =>
      simp [trace_llm_register, hs, saGet, saSet, SpanAttrs.fresh]
    | cons m rest =>
      have hne2 : (m :: rest).isEmpty = false := rfl
      have hloop := addMetricsLoop_all_valid (SpanAttrs.fresh (some nm))
        (m :: rest) (by rw [← hm]; exact hms)
      simp only [SpanAttrs.fresh] at hloop
      simp [trace_llm_register, hs, saGet, saSet, saModify, hne2, hloop.1,
        SpanAttrs.fresh]

/-- C9 witness: a valid entry followed by an invalid one on a fresh tracer —
the valid leading entry is registered and nothing raises. -/
theorem claim_C9_witness :
    (initState.span_attributes_dict = [] ∧ validMetricArg mBad = false ∧
      (∀ m ∈ [mGood], validMetricArg m = true)) ∧
    (saGet (trace_llm_register initState (some "sp") [] [] ([mGood] ++ mBad :: [])
        none).span_attributes_dict (some "sp")).map SpanAttrs.metrics
      = some ([mGood].map metricOf) :=
  ⟨⟨rfl, rfl, fun m hm => by rw [List.mem_singleton.mp hm]; exact rfl⟩,
   (claim_C9 initState "sp" [mGood] mBad [] rfl
      (fun m hm => by rw [List.mem_singleton.mp hm]; exact rfl) rfl).1⟩

theorem lookupAttr_setattr_self (env : AttrEnv) (o : Nat) (m : String) (v : Nat) :
    lookupAttr (setattrEnv env o m v) o m = some v := by
  induction env with
  | nil => simp [setattrEnv, lookupAttr]
  | cons p rest ih =>
    by_cases h : p.1 == (o, m)
    · simp [setattrEnv, h, lookupAttr]
    · simp [setattrEnv, h, lookupAttr, ih]

theorem lookupAttr_setattr_ne (env : AttrEnv) (a : Nat) (b : String) (v : Nat)
    (o : Nat) (m : String) (h : (a, b) ≠ (o, m)) :
    lookupAttr (setattrEnv env a b v) o m = lookupAttr env o m := by
  induction env with
  | nil => simp [setattrEnv, lookupAttr, h]
  | cons p rest ih =>
    by_cases hp : p.1 == (a, b)
    · have hpe : p.1 = (a, b) := by simpa using hp
      simp [setattrEnv, hp, lookupAttr, hpe, h]
    · simp [setattrEnv, hp, lookupAttr, ih]

/-- The restoration step of `unpatch_llm_calls` for one registry entry. -/
def restoreStep (fails : Nat → String → Bool) (e : AttrEnv) (p : PatchEntry) :
    AttrEnv :=
  if fails p.1 p.2.1 then e else setattrEnv e p.1 p.2.1 p.2.2

theorem restoreFold_lookup_of_not_mem (ps : List PatchEntry) (env : AttrEnv)
    (fails : Nat → String → Bool) (o : Nat) (m : String)
    (h : ∀ p ∈ ps, (p.1, p.2.1) ≠ (o, m)) :
    lookupAttr (ps.foldl (restoreStep fails) env) o m = lookupAttr env o m := by
  induction ps generalizing env with
  | nil => rfl
  | cons q rest ih =>
    rw [List.foldl_cons, ih (restoreStep fails env q)
      (fun p hp => h p (List.mem_cons_of_mem q hp))]
    unfold restoreStep
    by_cases hf : fails q.1 q.2.1
    · simp [hf]
    · simp [hf, lookupAttr_setattr_ne env q.1 q.2.1 q.2.2 o m
        (h q (List.mem_cons_self q rest))]

theorem restoreFold_restores (ps : List PatchEntry) (env : AttrEnv)
    (fails : Nat → String → Bool)
    (hnd : (ps.map (fun p => (p.1, p.2.1))).Nodup) :
    ∀ p ∈ ps, fails p.1 p.2.1 = false →
      lookupAttr (ps.foldl (restoreStep fails) env) p.1 p.2.1 = some p.2.2 := by
  induction ps generalizing env with
  | nil => intro p hp; exact absurd hp (List.not_mem_nil p)
  | cons q rest ih =>
    have hnd2 : (q.1, q.2.1) ∉ rest.map (fun p => (p.1, p.2.1)) ∧
        (rest.map (fun p => (p.1, p.2.1))).Nodup := by
      rw [List.map_cons] at hnd
      exact List.nodup_cons.mp hnd
    intro p hp hf
    rw [List.foldl_cons]
    rcases List.mem_cons.mp hp with rfl | hp'
    · rw [restoreFold_lookup_of_not_mem rest (restoreStep fails env p) fails
        p.1 p.2.1 (fun r hr hcontra => hnd2.1 (by
          rw [← hcontra]
          exact List.mem_map_of_mem (fun z => (z.1, z.2.1)) hr))]
      unfold restoreStep
      rw [hf]
      simp [lookupAttr_setattr_self]
    · exact ih (restoreStep fails env q) hnd2.2 p hp' hf

/-- C6. `unpatch_llm_calls` attempts to restore every recorded entry: each
entry whose `setattr` does not fail ends up restored in the attribute
environment (for a registry without duplicate slots), a failing entry does
not abort the others, the registry is cleared afterward, and a second call
is a no-op — the registry is empty both times and nothing is raised. -/
theorem claim_C6 (s : TracerState) (env : AttrEnv) (fails : Nat → String → Bool)
    (hnd : (s.patches.map (fun p => (p.1, p.2.1))).Nodup) :
    (unpatch_llm_calls s env fails).1.patches = [] ∧
    (∀ p ∈ s.patches, fails p.1 p.2.1 = false →
      lookupAttr (unpatch_llm_calls s env fails).2 p.1 p.2.1 = some p.2.2) ∧
    unpatch_llm_calls (unpatch_llm_calls s env fails).1
        (unpatch_llm_calls s env fails).2 fails
      = ((unpatch_llm_calls s env fails).1, (unpatch_llm_calls s env fails).2) := by
  refine ⟨rfl, ?_, rfl⟩
  intro p hp hf
  have := restoreFold_restores s.patches env fails hnd p hp hf
  simpa [unpatch_llm_calls, restoreStep] using this

/-- C6 witness: a two-entry registry in which restoring the first entry
fails; the second entry is still restored, the registry is cleared, and the
second uninstall call is a no-op. -/
theorem claim_C6_witness :
    (([(10, "create", 100), (20, "generate", 200)].map
        (fun p : PatchEntry => (p.1, p.2.1))).Nodup ∧
      (fun o _ => decide (o = 10)) 20 "generate" = false) ∧
    lookupAttr
        (unpatch_llm_calls
          { initState with patches := [(10, "create", 100), (20, "generate", 200)] }
          [] (fun o _ => decide (o = 10))).2 20 "generate" = some 200 :=
  ⟨⟨by simp, rfl⟩,
   (claim_C6
      { initState with patches := [(10, "create", 100), (20, "generate", 200)] }
      [] (fun o _ => decide (o = 10)) (by simp)).2.1
      (20, "generate", 200) (by simp) rfl⟩
